import Mathlib

/-!
Shallow embedding of the reqwest_dav WebDAV client's two core subsystems:
the PROPFIND response decoder (`src/types/list_cmd.rs`) and the digest
authentication lifecycle (`src/authentication.rs`), together with theorems
settling the frozen claims about them.

Modelling conventions:
- `chrono::DateTime<Utc>` is modelled as an integer count of seconds since
  the Unix epoch (`DavDateTime := Int`); the fixed instant
  1970-01-01T00:00:00Z built by the decoder's fallback branch is therefore
  the constant `epoch_datetime = 0`.
- Rust `Option<T>` is `Option`, `Result<T, E>` is `Except E T`.
- External collaborator crates (`digest_auth`, `httpdate`, the HTTP
  transport) are either parameters of the embedded functions or are
  modelled from the specification's statement of their contract; each such
  definition says so in its doc comment.
-/

namespace ReqwestDav

/-- `chrono::DateTime<Utc>`, modelled as seconds since the Unix epoch. -/
abbrev DavDateTime := Int

/-- The fixed instant 1970-01-01T00:00:00Z that the decoder substitutes for a
folder's missing `getlastmodified`; in the seconds-since-epoch model it is 0.
Source: the `from_naive_utc_and_offset` fallback expression in
`src/types/list_cmd.rs`. -/
def epoch_datetime : DavDateTime := 0

/-- `FieldError` from `src/types/mod.rs`. -/
structure FieldError where
  field : String
  deriving DecidableEq

/-- `StatusMismatchedError` from `src/types/mod.rs`. -/
structure StatusMismatchedError where
  response_code : Nat
  expected_code : Nat
  deriving DecidableEq

/-- `DecodeError` from `src/types/mod.rs`. Payloads of the externally
produced variants (`DigestAuth`, `SerdeXml`, `Server`) are modelled as
strings, since only the variant identity matters to the claims. -/
inductive DecodeError where
  | DigestAuth (msg : String)
  | NoAuthHeaderInResponse
  | SerdeXml (msg : String)
  | FieldNotSupported (e : FieldError)
  | FieldNotFound (e : FieldError)
  | StatusMismatched (e : StatusMismatchedError)
  | Server (response_code : Nat) (exception message : String)
  deriving DecidableEq

/-- `Error` from `src/types/mod.rs`. The `MissingAuthContext` variant is
used by `src/authentication.rs` (the defensive branch of
`apply_authentication`); modelled from the spec's contract for the Digest
Session, whose error enumeration names it, as its declaration is not part
of the `Error` enum in the snapshot's `types/mod.rs`. -/
inductive Error where
  | Reqwest (msg : String)
  | ReqwestDecode (msg : String)
  | Decode (e : DecodeError)
  | MissingAuthContext
  deriving DecidableEq

/-- `ListResourceType` from `src/types/list_cmd.rs` (the `redirectref`,
`redirect-lifetime` and `addressbook` XML names are the serde renames of
these fields). The Rust `opaque`-free record of four `Option<()>` flags. -/
structure ListResourceType where
  collection : Option Unit
  redirect_ref : Option Unit
  redirect_lifetime : Option Unit
  address_book : Option Unit
  deriving DecidableEq

/-- `ListProp` from `src/types/list_cmd.rs`: the sparse property bag of one
propstat block, after field-level deserialisation. -/
structure ListProp where
  last_modified : Option DavDateTime
  resource_type : ListResourceType
  quota_used_bytes : Option Int
  quota_available_bytes : Option Int
  tag : Option String
  content_length : Option Int
  content_type : Option String
  calendar_data : Option String
  deriving DecidableEq

/-- `ListPropStat` from `src/types/list_cmd.rs`. -/
structure ListPropStat where
  status : String
  prop : ListProp
  deriving DecidableEq

/-- `ListResponse` from `src/types/list_cmd.rs`: one resource's response,
with its ordered sequence of propstat blocks. -/
structure ListResponse where
  href : String
  prop_stat : List ListPropStat
  deriving DecidableEq

/-- `ListFile` from `src/types/list_cmd.rs`. -/
structure ListFile where
  href : String
  last_modified : DavDateTime
  content_length : Int
  content_type : String
  tag : Option String
  deriving DecidableEq

/-- `ListFolder` from `src/types/list_cmd.rs`. -/
structure ListFolder where
  href : String
  last_modified : DavDateTime
  quota_used_bytes : Option Int
  quota_available_bytes : Option Int
  tag : Option String
  address_book : Bool
  deriving DecidableEq

/-- `ListEntity` from `src/types/list_cmd.rs`. -/
inductive ListEntity where
  | File (f : ListFile)
  | Folder (f : ListFolder)
  deriving DecidableEq

/-- Helper for `split_whitespace`: walks the character list accumulating the
current token (reversed), emitting it at each whitespace run boundary. -/
def split_whitespace_aux : List Char → List Char → List String
  | [], acc => if acc.isEmpty then [] else [String.mk acc.reverse]
  | c :: cs, acc =>
    if c.isWhitespace then
      if acc.isEmpty then split_whitespace_aux cs []
      else String.mk acc.reverse :: split_whitespace_aux cs []
    else split_whitespace_aux cs (c :: acc)

/-- Rust's `str::split_whitespace`: the maximal non-empty runs of
non-whitespace characters, in order. -/
def split_whitespace (s : String) : List String :=
  split_whitespace_aux s.toList []

/-- Rust's `str::starts_with` on character lists. -/
def list_starts_with : List Char → List Char → Bool
  | _, [] => true
  | [], _ :: _ => false
  | c :: cs, p :: ps => c = p && list_starts_with cs ps

/-- Rust's `str::starts_with(pattern)` for a string pattern. -/
def starts_with (s pattern : String) : Bool :=
  list_starts_with s.toList pattern.toList

/-- `status_is_ok` from `src/types/list_cmd.rs`: take the second
whitespace-separated token of the status line (`nth(1)`) and test whether it
starts with `"2"`; absent token means `false`. -/
def status_is_ok (status : String) : Bool :=
  match (split_whitespace status).get? 1 with
  | some code => starts_with code "2"
  | none => false

/-- The body of the `match valid_prop_stat` arms of
`TryFrom<ListResponse> for ListEntity` in `src/types/list_cmd.rs`, applied
to the selected propstat block. The arm order of the source is kept: the
`collection` guard is tested first, then the redirect guards, then the
plain `File` arm. -/
def decode_block (href : String) (ps : ListPropStat) : Except Error ListEntity :=
  let prop := ps.prop
  if prop.resource_type.collection.isSome then
    Except.ok (ListEntity.Folder {
      href := href
      last_modified :=
        match prop.last_modified with
        | some last_modified => last_modified
        | none => epoch_datetime
      quota_used_bytes := prop.quota_used_bytes
      quota_available_bytes := prop.quota_available_bytes
      tag := prop.tag
      address_book := prop.resource_type.address_book.isSome })
  else if prop.resource_type.redirect_ref.isSome
      || prop.resource_type.redirect_lifetime.isSome then
    Except.error (Error.Decode (DecodeError.FieldNotSupported ⟨"redirect_ref"⟩))
  else
    match prop.last_modified with
    | none =>
      Except.error (Error.Decode (DecodeError.FieldNotFound ⟨"last_modified"⟩))
    | some last_modified =>
      Except.ok (ListEntity.File {
        href := href
        last_modified := last_modified
        content_length := prop.content_length.getD 0
        content_type := prop.content_type.getD ""
        tag := prop.tag })

/-- `TryFrom<ListResponse> for ListEntity` from `src/types/list_cmd.rs`:
filter the propstat blocks by `status_is_ok` and take the first
(`filter(..).next()`), then decode it; with no passing block, fail with
`FieldNotFound("propstat with valid status")`. -/
def try_from (response : ListResponse) : Except Error ListEntity :=
  match (response.prop_stat.filter (fun ps => status_is_ok ps.status)).head? with
  | some ps => decode_block response.href ps
  | none =>
    Except.error (Error.Decode (DecodeError.FieldNotFound ⟨"propstat with valid status"⟩))

/-- The error type a serde field deserialiser can produce, as used by
`http_time` and `empty_number` in `src/types/list_cmd.rs`: an
invalid-value error naming the offending value and the expectation text. -/
inductive DeError where
  | invalidValue (got : String) (expected : String)
  deriving DecidableEq

/-- `http_time` from `src/types/list_cmd.rs`. Its input is the
deserialised `Option<String>` content of the `getlastmodified` element; the
call to the external `httpdate::parse_http_date` crate is the
`parse_http_date` parameter (`none` models its `Err` case). -/
def http_time (parse_http_date : String → Option DavDateTime)
    (value : Option String) : Except DeError (Option DavDateTime) :=
  match value with
  | none => Except.ok none
  | some v =>
    if v = "" then Except.ok none
    else
      match parse_http_date v with
      | some t => Except.ok (some t)
      | none => Except.error (DeError.invalidValue v "a valid HTTP date")

/-- Rust's `str::parse::<i64>`: optional single leading `+`/`-`, then one
or more ASCII digits and nothing else, with the value required to fit in a
signed 64-bit integer; every other input is `None` (the `Err` case). -/
def parseI64 (s : String) : Option Int :=
  match s.toList with
  | [] => none
  | c :: rest =>
    let signed : Bool × List Char :=
      if c = '-' then (true, rest)
      else if c = '+' then (false, rest)
      else (false, c :: rest)
    match signed with
    | (neg, digits) =>
      if digits.isEmpty then none
      else if digits.all Char.isDigit then
        let n : Nat := digits.foldl (fun acc d => acc * 10 + (d.toNat - '0'.toNat)) 0
        if neg then
          if n ≤ 2 ^ 63 then some (-(n : Int)) else none
        else
          if n ≤ 2 ^ 63 - 1 then some (n : Int) else none
      else none

/-- `empty_number` from `src/types/list_cmd.rs`. Its input is the
deserialised `Option<String>` content of a numeric element
(`quota-used-bytes`, `quota-available-bytes`, `getcontentlength`); the
`value.parse::<i64>()` call is modelled by `parseI64`. -/
def empty_number (value : Option String) : Except DeError (Option Int) :=
  match value with
  | none => Except.ok none
  | some v =>
    if v = "" then Except.ok none
    else
      match parseI64 v with
      | some n => Except.ok (some n)
      | none => Except.error (DeError.invalidValue v "a valid number")

/-- HTTP method, modelled as its string name (the `http::Method` type). -/
abbrev Method := String

/-- `url::Url`, restricted to the two accessors the authentication code
uses: `as_str()` (the absolute URL) and `path()`. -/
structure Url where
  as_str : String
  path : String
  deriving DecidableEq

/-- The stored digest challenge (`digest_auth::WwwAuthenticateHeader`).
Modelled from the spec: the external `digest_auth` crate's challenge holds
the server parameters together with "an internal monotonically incrementing
nonce-count owned by the challenge-response computation"; only the fields
the claims observe are kept. -/
structure Challenge where
  realm : String
  nonce : String
  nc : Nat
  deriving DecidableEq

/-- `digest_auth::AuthContext`, built by `AuthContext::new(username,
password, url.path())` and then assigned the request method. -/
structure AuthContext where
  username : String
  password : String
  uri : String
  method : Method
  deriving DecidableEq

/-- `AuthContext::new` from the `digest_auth` crate: the method defaults to
GET before `apply_authentication` overwrites it. -/
def AuthContext.new (username password uri : String) : AuthContext :=
  { username := username, password := password, uri := uri, method := "GET" }

/-- The computed `Authorization` header value
(`digest_auth::AuthorizationHeader`), kept structured; its
`to_header_string()` rendering writes `nc` into the `nc=` field. -/
structure AuthorizationHeader where
  username : String
  realm : String
  nonce : String
  uri : String
  method : Method
  nc : Nat
  deriving DecidableEq

/-- Modelled from the spec: `WwwAuthenticateHeader::respond` of the
external `digest_auth` crate, the challenge-response computation invoked by
`apply_authentication`. Per the spec's contract, "the nonce-count field
increments by exactly one per computed response", mutating the stored
challenge in place; the returned header carries the incremented count. -/
def Challenge.respond (c : Challenge) (context : AuthContext) :
    Challenge × AuthorizationHeader :=
  let next := { c with nc := c.nc + 1 }
  (next,
    { username := context.username
      realm := c.realm
      nonce := c.nonce
      uri := context.uri
      method := context.method
      nc := next.nc })

/-- A header value on a request builder. The Basic credential and the
rendered digest response are kept structured rather than as their string
renderings. -/
inductive HeaderValue where
  | str (s : String)
  | basicCredential (username password : String)
  | digestResponse (h : AuthorizationHeader)
  deriving DecidableEq

/-- An outgoing HTTP request (the observable part of a reqwest
`RequestBuilder`): method, absolute URL and ordered header list. -/
structure Request where
  method : Method
  url : Url
  headers : List (String × HeaderValue)
  deriving DecidableEq

/-- `RequestBuilder::header`: append a header. -/
def Request.header (r : Request) (k : String) (v : HeaderValue) : Request :=
  { r with headers := r.headers ++ [(k, v)] }

/-- `RequestBuilder::basic_auth`: set the Basic credential as the
`Authorization` header. -/
def Request.basic_auth (r : Request) (username password : String) : Request :=
  r.header "Authorization" (HeaderValue.basicCredential username password)

/-- First header value stored under a key (reqwest's `HeaderMap::get`). -/
def find_header : List (String × HeaderValue) → String → Option HeaderValue
  | [], _ => none
  | (k, v) :: rest, key => if k = key then some v else find_header rest key

/-- The observable part of an HTTP response for the probe: the status code
and the `WWW-Authenticate` header when present. -/
structure HttpResponse where
  status : Nat
  www_authenticate : Option String
  deriving DecidableEq

/-- The transport collaborator (`reqwest::Client::request(..).send()`),
as a function from the request sent to the response received. -/
abbrev Transport := Request → HttpResponse

/-- The external `digest_auth::parse` challenge parser, as a parameter:
either a parsed challenge or the crate's error (stringly modelled). -/
abbrev DigestParse := String → Except String Challenge

/-- `Auth` from `src/types/mod.rs`. -/
inductive Auth where
  | Anonymous
  | Basic (username password : String)
  | Digest (username password : String)
  deriving DecidableEq

/-- The auth-relevant state of a `Client`: the configured auth mode and the
contents of the `digest_auth` mutex (`Option<WwwAuthenticateHeader>`). -/
structure Client where
  auth : Auth
  digest_auth : Option Challenge
  deriving DecidableEq

/-- The request the probe sends:
`self.agent.request(method.clone(), url.as_str())` is a fresh builder with
the caller's method and URL and no headers. -/
def probe_request (method : Method) (url : Url) : Request :=
  { method := method, url := url, headers := [] }

/-- `Client::update_auth_context` from `src/authentication.rs`: parse the
`WWW-Authenticate` header value with `digest_auth::parse` and, on success,
store the challenge under the lock; a parse failure propagates before the
store happens. Returns the new mutex contents with the result. -/
def update_auth_context (parse : DigestParse) (st : Option Challenge)
    (auth_header : String) : Option Challenge × Except Error Unit :=
  match parse auth_header with
  | Except.error e => (st, Except.error (Error.Decode (DecodeError.DigestAuth e)))
  | Except.ok auth_context => (some auth_context, Except.ok ())

/-- `Client::probe_server_for_digest_auth` from `src/authentication.rs`:
send the probe request; on a 401 with a `WWW-Authenticate` header, update
the auth context, otherwise fail with `NoAuthHeaderInResponse` (header
absent) or `StatusMismatched` (status not 401). -/
def probe_server_for_digest_auth (send : Transport) (parse : DigestParse)
    (st : Option Challenge) (method : Method) (url : Url) :
    Option Challenge × Except Error Unit :=
  let response := send (probe_request method url)
  let code := response.status
  if code = 401 then
    match response.www_authenticate with
    | none => (st, Except.error (Error.Decode DecodeError.NoAuthHeaderInResponse))
    | some www_auth => update_auth_context parse st www_auth
  else
    (st, Except.error (Error.Decode (DecodeError.StatusMismatched
      { response_code := code, expected_code := 401 })))

/-- `Client::is_digest_auth_initialized` from `src/authentication.rs`. -/
def is_digest_auth_initialized (st : Option Challenge) : Bool :=
  st.isSome

/-- `Client::setup_digest_auth_if_not_initialized` from
`src/authentication.rs`: probe exactly when the session is uninitialized;
otherwise do nothing and succeed. -/
def setup_digest_auth_if_not_initialized (send : Transport) (parse : DigestParse)
    (st : Option Challenge) (method : Method) (url : Url) :
    Option Challenge × Except Error Unit :=
  if is_digest_auth_initialized st = false then
    probe_server_for_digest_auth send parse st method url
  else
    (st, Except.ok ())

/-- `Client::apply_authentication` from `src/authentication.rs`, threading
the `digest_auth` mutex contents explicitly. Anonymous adds nothing, Basic
sets the Basic credential, Digest runs the lazy setup and then asks the
stored challenge to compute the `Authorization` header (the defensive
`None` branch returns `MissingAuthContext`). -/
def apply_authentication (send : Transport) (parse : DigestParse)
    (client : Client) (builder : Request) (method : Method) (url : Url) :
    Option Challenge × Except Error Request :=
  match client.auth with
  | Auth.Anonymous => (client.digest_auth, Except.ok builder)
  | Auth.Basic username password =>
    (client.digest_auth, Except.ok (builder.basic_auth username password))
  | Auth.Digest username password =>
    match setup_digest_auth_if_not_initialized send parse client.digest_auth method url with
    | (st, Except.error e) => (st, Except.error e)
    | (st, Except.ok _) =>
      let context := { AuthContext.new username password url.path with method := method }
      match st with
      | none => (st, Except.error Error.MissingAuthContext)
      | some state =>
        match state.respond context with
        | (state_next, response) =>
          (some state_next,
            Except.ok (builder.header "Authorization" (HeaderValue.digestResponse response)))

/-- The nonce-count encoded in a request's `Authorization` header, when
that header holds a computed digest response. -/
def Request.authorization_nc (r : Request) : Option Nat :=
  match find_header r.headers "Authorization" with
  | some (HeaderValue.digestResponse h) => some h.nc
  | _ => none

/-- Observation harness for the nonce-count claim: run `k` successive
`apply_authentication` calls of a Digest client, threading the stored
challenge state, and record the nonce-count each computed header encodes
(`none` when the call fails). -/
def digest_nc_trace (send : Transport) (parse : DigestParse)
    (username password : String) (builder : Request) (method : Method) (url : Url) :
    Option Challenge → Nat → List (Option Nat)
  | _, 0 => []
  | st, k + 1 =>
    match apply_authentication send parse
        { auth := Auth.Digest username password, digest_auth := st } builder method url with
    | (st', Except.ok req) =>
      req.authorization_nc ::
        digest_nc_trace send parse username password builder method url st' k
    | (st', Except.error _) =>
      none :: digest_nc_trace send parse username password builder method url st' k

/-! Example propstat blocks shared by the concrete witnesses. -/

/-- A resource type with no flag set (`<D:resourcetype/>`). -/
def default_resource_type : ListResourceType :=
  { collection := none, redirect_ref := none, redirect_lifetime := none,
    address_book := none }

/-- A property bag with every property absent. -/
def base_prop : ListProp :=
  { last_modified := none
    resource_type := default_resource_type
    quota_used_bytes := none
    quota_available_bytes := none
    tag := none
    content_length := none
    content_type := none
    calendar_data := none }

/-! Helper lemmas. -/

/-- Appending a header to a list that does not yet hold the key makes the
lookup find the appended value. -/
theorem find_header_append (l : List (String × HeaderValue)) (k : String)
    (v : HeaderValue) (h : find_header l k = none) :
    find_header (l ++ [(k, v)]) k = some v := by
  induction l with
  | nil => simp [find_header]
  | cons kv rest ih =>
    obtain ⟨k', v'⟩ := kv
    have hdef : find_header ((k', v') :: (rest ++ [(k, v)])) k
        = if k' = k then some v' else find_header (rest ++ [(k, v)]) k := rfl
    rw [List.cons_append, hdef]
    unfold find_header at h
    by_cases hk : k' = k
    · simp [hk] at h
    · simp only [if_neg hk] at h ⊢
      exact ih h

/-- The first element of a filtered list, when the list splits into a
prefix of elements failing the predicate followed by one passing it. -/
theorem filter_head_first {α : Type} (p : α → Bool) (pre : List α) (x : α)
    (rest : List α) (hpre : ∀ a ∈ pre, p a = false) (hx : p x = true) :
    ((pre ++ x :: rest).filter p).head? = some x := by
  induction pre with
  | nil => simp [List.filter_cons, hx]
  | cons a pre ih =>
    have ha : p a = false := hpre a (by simp)
    simp only [List.cons_append, List.filter_cons, ha]
    simp only [Bool.false_eq_true, if_false]
    exact ih (fun b hb => hpre b (by simp [hb]))

end ReqwestDav

deriving instance DecidableEq for Except

namespace ReqwestDav

/-! Claim theorems. -/

/-- C3: the decoder selects as authoritative the first propstat block in
input order whose status line's second whitespace-separated token starts
with the digit 2; with no passing block it fails with
`FieldNotFound("propstat with valid status")`. -/
theorem propstat_selection (r : ListResponse) :
    ((∀ ps ∈ r.prop_stat, status_is_ok ps.status = false) →
      try_from r = Except.error (Error.Decode
        (DecodeError.FieldNotFound ⟨"propstat with valid status"⟩)))
    ∧ (∀ pre ps rest, r.prop_stat = pre ++ ps :: rest →
        (∀ q ∈ pre, status_is_ok q.status = false) →
        status_is_ok ps.status = true →
        try_from r = decode_block r.href ps)
    ∧ (∀ s code, (split_whitespace s).get? 1 = some code →
        status_is_ok s = starts_with code "2") := by
  refine ⟨?_, ?_, ?_⟩
  · intro h
    have hfil : r.prop_stat.filter (fun ps => status_is_ok ps.status) = [] := by
      rw [List.filter_eq_nil_iff]
      intro a ha
      simp [h a ha]
    unfold try_from
    rw [hfil]
    rfl
  · intro pre ps rest hsplit hpre hps
    unfold try_from
    rw [hsplit, filter_head_first _ pre ps rest hpre hps]
  · intro s code h
    unfold status_is_ok
    rw [h]

/-- A propstat block with status 404 and an empty property bag. -/
def block_404 : ListPropStat :=
  { status := "HTTP/1.1 404 Not Found", prop := base_prop }

/-- A propstat block with status 200 and an empty property bag. -/
def block_200 : ListPropStat :=
  { status := "HTTP/1.1 200 OK", prop := base_prop }

/-- C3 witness: a 404-only response fails with the missing-propstat error;
with a 404 block before a 200 block the 200 block is decoded; on the status
line `HTTP/1.1 207 Multi-Status` the filter tests the token `207`. -/
theorem propstat_selection_witness :
    try_from { href := "/a", prop_stat := [block_404] }
      = Except.error (Error.Decode
          (DecodeError.FieldNotFound ⟨"propstat with valid status"⟩))
    ∧ try_from { href := "/a", prop_stat := [block_404, block_200] }
      = decode_block "/a" block_200
    ∧ status_is_ok "HTTP/1.1 207 Multi-Status" = starts_with "207" "2" :=
  ⟨(propstat_selection { href := "/a", prop_stat := [block_404] }).1 (by decide),
   (propstat_selection { href := "/a", prop_stat := [block_404, block_200] }).2.1
     [block_404] block_200 [] rfl (by decide) (by decide),
   (propstat_selection { href := "/a", prop_stat := [] }).2.2
     "HTTP/1.1 207 Multi-Status" "207" (by decide)⟩

/-- A propstat block marking both `collection` and `redirectref` in its
resource type, in an otherwise ordinary 200 block. -/
def redirect_with_collection_response : ListResponse :=
  { href := "/r"
    prop_stat := [{ status := "HTTP/1.1 200 OK"
                    prop := { base_prop with
                      last_modified := some 100
                      resource_type := { collection := some ()
                                         redirect_ref := some ()
                                         redirect_lifetime := none
                                         address_book := none } } }] }

/-- C2 counterexample: a 2xx block whose resource type marks both a
collection and `redirectref` decodes as a `Folder` — the source's match
tests the `collection` guard before the redirect guard — so decoding does
not fail with `FieldNotSupported("redirect_ref")` regardless of the other
properties. -/
theorem redirect_with_collection_decodes_as_folder :
    try_from redirect_with_collection_response
      = Except.ok (ListEntity.Folder
          { href := "/r", last_modified := 100, quota_used_bytes := none,
            quota_available_bytes := none, tag := none, address_book := false })
    ∧ try_from redirect_with_collection_response
      ≠ Except.error (Error.Decode
          (DecodeError.FieldNotSupported ⟨"redirect_ref"⟩)) := by
  exact ⟨rfl, by decide⟩

/-- C2 (amended): when the authoritative (first 2xx) block's resource type
marks `redirectref` or `redirect-lifetime` and does not also mark a
collection, decoding fails with `FieldNotSupported("redirect_ref")`
regardless of the other properties present; a collection marker takes
precedence and yields a `Folder` instead. -/
theorem redirect_block_unsupported (r : ListResponse) (b : ListPropStat)
    (hsel : (r.prop_stat.filter (fun ps => status_is_ok ps.status)).head? = some b)
    (hcol : b.prop.resource_type.collection = none)
    (hred : b.prop.resource_type.redirect_ref.isSome = true
            ∨ b.prop.resource_type.redirect_lifetime.isSome = true) :
    try_from r = Except.error (Error.Decode
      (DecodeError.FieldNotSupported ⟨"redirect_ref"⟩)) := by
  unfold try_from
  rw [hsel]
  unfold decode_block
  rcases hred with h | h <;> simp [hcol, h]

/-- A fully populated file-shaped propstat block whose resource type marks
only `redirectref`. -/
def redirect_only_block : ListPropStat :=
  { status := "HTTP/1.1 200 OK"
    prop := { base_prop with
      last_modified := some 100
      content_length := some 7
      content_type := some "text/plain"
      resource_type := { collection := none
                         redirect_ref := some ()
                         redirect_lifetime := none
                         address_book := none } } }

/-- C2 witness: a 200 block marking only `redirectref` fails with
`FieldNotSupported("redirect_ref")` even though every file property is
present. -/
theorem redirect_block_unsupported_witness :
    try_from { href := "/r", prop_stat := [redirect_only_block] }
      = Except.error (Error.Decode
          (DecodeError.FieldNotSupported ⟨"redirect_ref"⟩)) :=
  redirect_block_unsupported { href := "/r", prop_stat := [redirect_only_block] }
    redirect_only_block rfl rfl (Or.inl rfl)

/-- C7: an authoritative collection block decodes to a `Folder` whose
timestamp is the block's `last_modified` when present and the epoch instant
when absent; a non-collection, non-redirect block with no `last_modified`
fails with `FieldNotFound("last_modified")`. -/
theorem folder_epoch_fallback_file_requires_last_modified
    (r : ListResponse) (b : ListPropStat)
    (hsel : (r.prop_stat.filter (fun ps => status_is_ok ps.status)).head? = some b) :
    (b.prop.resource_type.collection.isSome = true →
      try_from r = Except.ok (ListEntity.Folder
        { href := r.href
          last_modified := b.prop.last_modified.getD epoch_datetime
          quota_used_bytes := b.prop.quota_used_bytes
          quota_available_bytes := b.prop.quota_available_bytes
          tag := b.prop.tag
          address_book := b.prop.resource_type.address_book.isSome }))
    ∧ (b.prop.resource_type.collection = none →
       b.prop.resource_type.redirect_ref = none →
       b.prop.resource_type.redirect_lifetime = none →
       b.prop.last_modified = none →
       try_from r = Except.error (Error.Decode
         (DecodeError.FieldNotFound ⟨"last_modified"⟩))) := by
  constructor
  · intro hcol
    unfold try_from
    rw [hsel]
    unfold decode_block
    cases hlm : b.prop.last_modified <;> simp [hcol, hlm]
  · intro hcol hrr hrl hlm
    unfold try_from
    rw [hsel]
    unfold decode_block
    simp [hcol, hrr, hrl, hlm]

/-- A collection block with no `getlastmodified`. -/
def folder_no_lm_block : ListPropStat :=
  { status := "HTTP/1.1 200 OK"
    prop := { base_prop with
      resource_type := { default_resource_type with collection := some () } } }

/-- C7 witness: a collection block with no `getlastmodified` decodes to a
`Folder` stamped with the epoch instant, while a file-shaped block with no
`getlastmodified` fails with the missing-field error. -/
theorem folder_epoch_fallback_witness :
    try_from { href := "/c", prop_stat := [folder_no_lm_block] }
      = Except.ok (ListEntity.Folder
          { href := "/c", last_modified := epoch_datetime,
            quota_used_bytes := none, quota_available_bytes := none,
            tag := none, address_book := false })
    ∧ try_from { href := "/f", prop_stat := [block_200] }
      = Except.error (Error.Decode
          (DecodeError.FieldNotFound ⟨"last_modified"⟩)) :=
  ⟨(folder_epoch_fallback_file_requires_last_modified
      { href := "/c", prop_stat := [folder_no_lm_block] } folder_no_lm_block rfl).1 rfl,
   (folder_epoch_fallback_file_requires_last_modified
      { href := "/f", prop_stat := [block_200] } block_200 rfl).2 rfl rfl rfl rfl⟩

/-- C8: decoding a `File` with absent `getcontentlength` and
`getcontenttype` succeeds, yielding content length 0 and the empty content
type. -/
theorem file_defaults_for_absent_scalars (r : ListResponse) (b : ListPropStat)
    (lm : DavDateTime)
    (hsel : (r.prop_stat.filter (fun ps => status_is_ok ps.status)).head? = some b)
    (hcol : b.prop.resource_type.collection = none)
    (hrr : b.prop.resource_type.redirect_ref = none)
    (hrl : b.prop.resource_type.redirect_lifetime = none)
    (hlm : b.prop.last_modified = some lm)
    (hcl : b.prop.content_length = none)
    (hct : b.prop.content_type = none) :
    try_from r = Except.ok (ListEntity.File
      { href := r.href, last_modified := lm, content_length := 0,
        content_type := "", tag := b.prop.tag }) := by
  unfold try_from
  rw [hsel]
  unfold decode_block
  simp [hcol, hrr, hrl, hlm, hcl, hct]

/-- A file-shaped block carrying only a `getlastmodified` value. -/
def file_only_lm_block : ListPropStat :=
  { status := "HTTP/1.1 200 OK"
    prop := { base_prop with last_modified := some 100 } }

/-- C8 witness: a file block carrying only a timestamp decodes to a `File`
with content length 0 and the empty content type. -/
theorem file_defaults_for_absent_scalars_witness :
    try_from { href := "/f", prop_stat := [file_only_lm_block] }
      = Except.ok (ListEntity.File
          { href := "/f", last_modified := 100, content_length := 0,
            content_type := "", tag := none }) :=
  file_defaults_for_absent_scalars { href := "/f", prop_stat := [file_only_lm_block] }
    file_only_lm_block 100 rfl rfl rfl rfl rfl rfl rfl

/-- C9: the `getlastmodified`, quota and `getcontentlength` field
deserialisers map an empty string to "absent" rather than erroring, while
every non-empty non-conforming value is a hard decode failure naming the
offending value. -/
theorem scalar_deserializers_empty_means_absent :
    (∀ parse_http_date, http_time parse_http_date none = Except.ok none)
    ∧ (∀ parse_http_date, http_time parse_http_date (some "") = Except.ok none)
    ∧ (∀ parse_http_date v, v ≠ "" → parse_http_date v = none →
        http_time parse_http_date (some v)
          = Except.error (DeError.invalidValue v "a valid HTTP date"))
    ∧ (∀ parse_http_date v t, v ≠ "" → parse_http_date v = some t →
        http_time parse_http_date (some v) = Except.ok (some t))
    ∧ empty_number none = Except.ok none
    ∧ empty_number (some "") = Except.ok none
    ∧ (∀ v, v ≠ "" → parseI64 v = none →
        empty_number (some v) = Except.error (DeError.invalidValue v "a valid number"))
    ∧ (∀ v n, v ≠ "" → parseI64 v = some n →
        empty_number (some v) = Except.ok (some n)) := by
  refine ⟨fun _ => rfl, fun _ => rfl, ?_, ?_, rfl, rfl, ?_, ?_⟩
  · intro parse_http_date v hv hp
    simp [http_time, hv, hp]
  · intro parse_http_date v t hv hp
    simp [http_time, hv, hp]
  · intro v hv hp
    simp [empty_number, hv, hp]
  · intro v n hv hp
    simp [empty_number, hv, hp]

/-- C9 witness: concrete empty, conforming and non-conforming values for
both the HTTP-date and the numeric deserialisers. -/
theorem scalar_deserializers_witness :
    http_time (fun _ => none) none = Except.ok none
    ∧ http_time (fun _ => none) (some "") = Except.ok none
    ∧ http_time (fun _ => none) (some "nonsense")
        = Except.error (DeError.invalidValue "nonsense" "a valid HTTP date")
    ∧ http_time (fun _ => some 7) (some "Wed, 10 Apr 2019 14:00:00 GMT")
        = Except.ok (some 7)
    ∧ empty_number none = Except.ok none
    ∧ empty_number (some "") = Except.ok none
    ∧ empty_number (some "12a")
        = Except.error (DeError.invalidValue "12a" "a valid number")
    ∧ empty_number (some "42") = Except.ok (some 42) :=
  ⟨scalar_deserializers_empty_means_absent.1 _,
   scalar_deserializers_empty_means_absent.2.1 _,
   scalar_deserializers_empty_means_absent.2.2.1 _ "nonsense" (by decide) rfl,
   scalar_deserializers_empty_means_absent.2.2.2.1 _ _ 7 (by decide) rfl,
   scalar_deserializers_empty_means_absent.2.2.2.2.1,
   scalar_deserializers_empty_means_absent.2.2.2.2.2.1,
   scalar_deserializers_empty_means_absent.2.2.2.2.2.2.1 "12a" (by decide) (by decide),
   scalar_deserializers_empty_means_absent.2.2.2.2.2.2.2 "42" 42 (by decide) (by decide)⟩

/-- C10: the propstat status filter is total and returns `false` on every
status string that lacks a second whitespace-separated token, the empty
string included, rather than failing. -/
theorem status_filter_total_on_short_status :
    status_is_ok "" = false
    ∧ (∀ s, (split_whitespace s).get? 1 = none → status_is_ok s = false) :=
  ⟨rfl, fun s h => by unfold status_is_ok; rw [h]⟩

/-- C10 witness: a one-token status line has no second token and is
filtered out. -/
theorem status_filter_total_witness :
    (split_whitespace "HTTP/1.1").get? 1 = none
    ∧ status_is_ok "HTTP/1.1" = false :=
  ⟨by decide, status_filter_total_on_short_status.2 "HTTP/1.1" (by decide)⟩

/-- A single `apply_authentication` step of a Digest client whose session
is established: the setup step does nothing and the stored challenge
computes the header, incrementing its nonce-count. -/
theorem apply_authentication_established (send : Transport) (parse : DigestParse)
    (username password : String) (builder : Request) (method : Method) (url : Url)
    (c : Challenge) :
    apply_authentication send parse
        { auth := Auth.Digest username password, digest_auth := some c }
        builder method url
      = (some { c with nc := c.nc + 1 },
         Except.ok (builder.header "Authorization" (HeaderValue.digestResponse
           { username := username, realm := c.realm, nonce := c.nonce,
             uri := url.path, method := method, nc := c.nc + 1 }))) := rfl

/-- Reading back the nonce-count of a freshly appended digest
`Authorization` header. -/
theorem authorization_nc_of_header (builder : Request) (v : AuthorizationHeader)
    (hb : find_header builder.headers "Authorization" = none) :
    (builder.header "Authorization" (HeaderValue.digestResponse v)).authorization_nc
      = some v.nc := by
  unfold Request.authorization_nc Request.header
  rw [find_header_append builder.headers "Authorization"
    (HeaderValue.digestResponse v) hb]

/-- C1: on a Digest client with an established session, each computed
`Authorization` header increments the stored challenge's nonce-count by
exactly one, so the three headers computed after establishment encode
nonce-counts 1, 2, 3 in sequence, for every transport and parser (the
request's eventual success is never consulted). -/
theorem digest_nonce_counts_increment (send : Transport) (parse : DigestParse)
    (username password : String) (builder : Request) (method : Method) (url : Url)
    (c : Challenge) (h0 : c.nc = 0)
    (hb : find_header builder.headers "Authorization" = none) :
    digest_nc_trace send parse username password builder method url (some c) 3
      = [some 1, some 2, some 3] := by
  simp only [digest_nc_trace, apply_authentication_established,
    authorization_nc_of_header _ _ hb, h0]

/-- C1 witness: a concrete established client computes nonce-counts 1, 2, 3
even against a transport that always answers 200 with no header. -/
theorem digest_nonce_counts_increment_witness :
    (({ realm := "r", nonce := "n", nc := 0 } : Challenge).nc = 0
      ∧ find_header ([] : List (String × HeaderValue)) "Authorization" = none)
    ∧ digest_nc_trace (fun _ => { status := 200, www_authenticate := none })
        (fun _ => Except.error "unused") "user" "password"
        { method := "GET", url := { as_str := "http://h/", path := "/" }, headers := [] }
        "GET" { as_str := "http://h/", path := "/" }
        (some { realm := "r", nonce := "n", nc := 0 }) 3
      = [some 1, some 2, some 3] :=
  ⟨⟨rfl, rfl⟩,
   digest_nonce_counts_increment (fun _ => { status := 200, www_authenticate := none })
     (fun _ => Except.error "unused") "user" "password"
     { method := "GET", url := { as_str := "http://h/", path := "/" }, headers := [] }
     "GET" { as_str := "http://h/", path := "/" }
     { realm := "r", nonce := "n", nc := 0 } rfl rfl⟩

/-- C4: the probe accepts exactly a 401 response carrying a
`WWW-Authenticate` header: any other status fails with
`StatusMismatched`, a 401 without the header fails with
`NoAuthHeaderInResponse`, and every failing probe leaves the session
uninitialized. -/
theorem digest_probe_only_accepts_401_with_header (send : Transport)
    (parse : DigestParse) (method : Method) (url : Url) :
    ((send (probe_request method url)).status ≠ 401 →
      probe_server_for_digest_auth send parse none method url
        = (none, Except.error (Error.Decode (DecodeError.StatusMismatched
            { response_code := (send (probe_request method url)).status
              expected_code := 401 }))))
    ∧ ((send (probe_request method url)).status = 401 →
       (send (probe_request method url)).www_authenticate = none →
       probe_server_for_digest_auth send parse none method url
         = (none, Except.error (Error.Decode DecodeError.NoAuthHeaderInResponse)))
    ∧ (∀ e, (probe_server_for_digest_auth send parse none method url).2
          = Except.error e →
        (probe_server_for_digest_auth send parse none method url).1 = none) := by
  refine ⟨?_, ?_, ?_⟩
  · intro h
    simp [probe_server_for_digest_auth, h]
  · intro h1 h2
    simp [probe_server_for_digest_auth, h1, h2]
  · intro e he
    unfold probe_server_for_digest_auth at he ⊢
    by_cases h : (send (probe_request method url)).status = 401
    · simp only [h, if_true, if_pos] at he ⊢
      cases hw : (send (probe_request method url)).www_authenticate with
      | none => simp [hw]
      | some w =>
        simp only [hw, update_auth_context] at he ⊢
        cases hp : parse w with
        | error err => simp [hp]
        | ok ctx => simp [hp] at he
    · simp [h]

/-- C4 witness: a 500 answer fails with `StatusMismatched(500, 401)` and a
bare 401 fails with `NoAuthHeaderInResponse`; both leave the state `none`. -/
theorem digest_probe_only_accepts_401_witness :
    probe_server_for_digest_auth (fun _ => { status := 500, www_authenticate := none })
        (fun _ => Except.error "unused") none "GET"
        { as_str := "http://h/", path := "/" }
      = (none, Except.error (Error.Decode (DecodeError.StatusMismatched
          { response_code := 500, expected_code := 401 })))
    ∧ probe_server_for_digest_auth (fun _ => { status := 401, www_authenticate := none })
        (fun _ => Except.error "unused") none "GET"
        { as_str := "http://h/", path := "/" }
      = (none, Except.error (Error.Decode DecodeError.NoAuthHeaderInResponse)) :=
  ⟨(digest_probe_only_accepts_401_with_header
      (fun _ => { status := 500, www_authenticate := none })
      (fun _ => Except.error "unused") "GET"
      { as_str := "http://h/", path := "/" }).1 (by decide),
   (digest_probe_only_accepts_401_with_header
      (fun _ => { status := 401, www_authenticate := none })
      (fun _ => Except.error "unused") "GET"
      { as_str := "http://h/", path := "/" }).2.1 rfl rfl⟩

/-- C5: the probe round-trip is performed only when the session is
uninitialized: with a stored challenge the setup step succeeds without
consulting the transport at all, the uninitialized setup is exactly the
probe, and an established client's `apply_authentication` is independent of
the transport (it never re-probes). -/
theorem digest_probe_only_when_uninitialized (send send' : Transport)
    (parse : DigestParse) (c : Challenge) (method : Method) (url : Url)
    (username password : String) (builder : Request) :
    setup_digest_auth_if_not_initialized send parse (some c) method url
      = (some c, Except.ok ())
    ∧ setup_digest_auth_if_not_initialized send parse none method url
      = probe_server_for_digest_auth send parse none method url
    ∧ apply_authentication send parse
        { auth := Auth.Digest username password, digest_auth := some c }
        builder method url
      = apply_authentication send' parse
          { auth := Auth.Digest username password, digest_auth := some c }
          builder method url := by
  refine ⟨rfl, rfl, ?_⟩
  rw [apply_authentication_established, apply_authentication_established]

/-- C6: the probe issues the caller's own HTTP method against the caller's
own URL with no `Authorization` header, and the probe's outcome depends on
the transport only through its answer to that one request. -/
theorem digest_probe_same_method_url_no_auth_header (method : Method) (url : Url)
    (send send' : Transport) (parse : DigestParse) (st : Option Challenge) :
    (probe_request method url).method = method
    ∧ (probe_request method url).url = url
    ∧ find_header (probe_request method url).headers "Authorization" = none
    ∧ (send (probe_request method url) = send' (probe_request method url) →
       probe_server_for_digest_auth send parse st method url
         = probe_server_for_digest_auth send' parse st method url) := by
  refine ⟨rfl, rfl, rfl, ?_⟩
  intro h
  unfold probe_server_for_digest_auth
  rw [h]

/-- C6 witness: two transports answering the probe request identically make
the probe agree, even though one of them answers other requests
differently. -/
theorem digest_probe_same_method_url_witness :
    (fun (_ : Request) => ({ status := 401, www_authenticate := some "d" } : HttpResponse))
        (probe_request "PROPFIND" { as_str := "http://h/x", path := "/x" })
      = (fun (r : Request) => if r.headers = [] then
          ({ status := 401, www_authenticate := some "d" } : HttpResponse)
          else { status := 200, www_authenticate := none })
          (probe_request "PROPFIND" { as_str := "http://h/x", path := "/x" })
    ∧ probe_server_for_digest_auth
        (fun _ => { status := 401, www_authenticate := some "d" })
        (fun _ => Except.error "unused") none "PROPFIND"
        { as_str := "http://h/x", path := "/x" }
      = probe_server_for_digest_auth
          (fun r => if r.headers = [] then
            { status := 401, www_authenticate := some "d" }
            else { status := 200, www_authenticate := none })
          (fun _ => Except.error "unused") none "PROPFIND"
          { as_str := "http://h/x", path := "/x" } :=
  ⟨rfl,
   (digest_probe_same_method_url_no_auth_header "PROPFIND"
      { as_str := "http://h/x", path := "/x" }
      (fun _ => { status := 401, www_authenticate := some "d" })
      (fun r => if r.headers = [] then
        { status := 401, www_authenticate := some "d" }
        else { status := 200, www_authenticate := none })
      (fun _ => Except.error "unused") none).2.2.2 rfl⟩

end ReqwestDav
